import Mathlib

/-!
Verification of the orchestration notebook
`rl_deepracer_coach_robomaker.ipynb` (AwsDeepRacer repository).

The notebook is a linear script of SDK calls.  We embed each cell that the
claims touch as a pure Lean function: external service calls become explicit
inputs (`Except` values for calls that can raise, oracles `Nat → _` for calls
repeated in a loop), and the cell's observable behaviour (which calls it
issues, which help texts it displays, whether it raises) becomes the result.
-/

namespace DeepRacer

/-- A `time.struct_time` value as returned by `time.gmtime()`.  `gmtime` has
second resolution, so two clock reads within the same second return equal
values. -/
structure Tm where
  tmYear : Nat
  tmMon : Nat
  tmMday : Nat
  tmHour : Nat
  tmMin : Nat
  tmSec : Nat
deriving DecidableEq, Repr

/-- Zero-padded two-digit field, as `strftime` renders `%m`, `%d`, `%H`, `%M`,
`%S` (and `%y` after reduction mod 100). -/
def pad2 (n : Nat) : String :=
  if n < 10 then "0" ++ toString n else toString n

/-- Zero-padded four-digit field, as `strftime` renders `%Y`. -/
def pad4 (n : Nat) : String :=
  if n < 10 then "000" ++ toString n
  else if n < 100 then "00" ++ toString n
  else if n < 1000 then "0" ++ toString n
  else toString n

/-- The notebook's `strftime("%y%m%d-%H%M%S", tm)` (used for job names). -/
def strftimeYmdHMS (tm : Tm) : String :=
  pad2 (tm.tmYear % 100) ++ pad2 tm.tmMon ++ pad2 tm.tmMday ++ "-" ++
    pad2 tm.tmHour ++ pad2 tm.tmMin ++ pad2 tm.tmSec

/-- The notebook's `strftime("%Y-%m-%d-%H-%M-%S", tm)` (used for the
RoboMaker `clientRequestToken`). -/
def strftimeTokenFmt (tm : Tm) : String :=
  pad4 tm.tmYear ++ "-" ++ pad2 tm.tmMon ++ "-" ++ pad2 tm.tmMday ++ "-" ++
    pad2 tm.tmHour ++ "-" ++ pad2 tm.tmMin ++ "-" ++ pad2 tm.tmSec

/-- Helper for `hasSubstr`: does `needle` occur as a contiguous run inside the
second list? -/
def hasSubstrAux (needle : List Char) : List Char → Bool
  | [] => needle.isEmpty
  | c :: rest => needle.isPrefixOf (c :: rest) || hasSubstrAux needle rest

/-- Python's substring test `needle in hay` on strings, as used by the
notebook's `"RouteAlreadyExists" in str(e)` style checks. -/
def hasSubstr (needle hay : String) : Bool :=
  hasSubstrAux needle.data hay.data

/-! ## Cell "Define Variables": job naming and the region gate -/

/-- The notebook's `job_name_prefix = "rl-deepracer"`, the fixed stem of all
generated names. -/
def jobNameStem : String := "rl-deepracer"

/-- The notebook's `job_name = job_name_prefix + "-sagemaker-" +
strftime("%y%m%d-%H%M%S", tm)`, where `tm = gmtime()` is read once. -/
def job_name (tm : Tm) : String :=
  jobNameStem ++ "-sagemaker-" ++ strftimeYmdHMS tm

/-- The notebook's `s3_prefix`: the very same assignment as `job_name`
(`job_name = s3_prefix = ...` is one chained assignment in the source). -/
def s3Prefix (tm : Tm) : String := job_name tm

/-- The notebook's `s3_prefix_robomaker = job_name_prefix + "-robomaker-" +
strftime("%y%m%d-%H%M%S", tm)`, formatted from the same `tm` value. -/
def s3PrefixRobomaker (tm : Tm) : String :=
  jobNameStem ++ "-robomaker-" ++ strftimeYmdHMS tm

/-- The notebook's `job_duration_in_seconds = 3600 * 5`. -/
def jobDurationInSeconds : Nat := 3600 * 5

/-- The fixed region allow-list in the notebook's membership test. -/
def allowedRegions : List String := ["us-west-2", "us-east-1", "eu-west-1"]

/-- The message of the exception raised for an unsupported region. -/
def regionErrorMsg : String :=
  "This notebook uses RoboMaker which is available only in US East (N. Virginia), US West (Oregon) and EU (Ireland). Please switch to one of these regions."

/-- The notebook's region gate: `if aws_region not in ["us-west-2",
"us-east-1", "eu-west-1"]: raise Exception(...)`. -/
def regionGate (awsRegion : String) : Except String Unit :=
  if awsRegion ∉ allowedRegions then Except.error regionErrorMsg
  else Except.ok ()

/-! ## The notebook's statement order, as a trace of steps -/

/-- The top-level steps of the notebook, in source order, at the granularity
the claims need. -/
inductive Step where
  | sagemakerSessionInit
  | defaultBucket
  | computeNames
  | readRegionName
  | regionGateCheck
  | getExecutionRole
  | describeVpcs
  | describeSecurityGroups
  | describeSubnets
  | describeRouteTables
  | createVpcEndpoint
  | s3RemoveAndUploadArtifacts
  | estimatorFit
  | downloadAndUploadBundle
  | createSimulationApp
  | createSimulationJobs
  | waitForMetricsCsv
  | plotMetrics
  | cancelSimulationJobs
  | stopTrainingJob
  | evaluationSimulationJob
  | deleteSimulationApp
deriving DecidableEq, Repr

/-- The notebook's cells in execution order: the S3 bucket setup cell
(`sagemaker.session.Session()` then `sage_session.default_bucket()`), the
variables cell (names from one `gmtime()` read, then
`sage_session.boto_region_name`, then the region gate), and the rest. -/
def notebookSteps : List Step :=
  [Step.sagemakerSessionInit, Step.defaultBucket, Step.computeNames,
   Step.readRegionName, Step.regionGateCheck, Step.getExecutionRole,
   Step.describeVpcs, Step.describeSecurityGroups, Step.describeSubnets,
   Step.describeRouteTables, Step.createVpcEndpoint,
   Step.s3RemoveAndUploadArtifacts, Step.estimatorFit,
   Step.downloadAndUploadBundle, Step.createSimulationApp,
   Step.createSimulationJobs, Step.waitForMetricsCsv, Step.plotMetrics,
   Step.cancelSimulationJobs, Step.stopTrainingJob,
   Step.evaluationSimulationJob, Step.deleteSimulationApp]

/-- Whether a step reaches over the network to an AWS service.
`sagemaker.session.Session().default_bucket()` resolves the account id
through STS and creates (or checks) the account's default bucket in S3, so it
is a network call; constructing the session object, reading
`boto_region_name` (a local attribute), computing names from `gmtime()` and
the membership test of the region gate are local, as is rendering the
already-downloaded CSV. -/
def touchesNetwork : Step → Bool
  | Step.sagemakerSessionInit => false
  | Step.computeNames => false
  | Step.readRegionName => false
  | Step.regionGateCheck => false
  | Step.plotMetrics => false
  | _ => true

/-- The steps the notebook executes before the region gate runs. -/
def stepsBeforeRegionGate : List Step :=
  notebookSteps.takeWhile (fun s => s ≠ Step.regionGateCheck)

/-! ## Cell "Configure VPC": the S3 endpoint setup with its two try/except
blocks -/

/-- One entry of `ec2.describe_route_tables()['RouteTables']`, at the
granularity the cell reads it. -/
structure RouteTable where
  routeTableId : String
  vpcId : String
deriving DecidableEq, Repr

/-- The remediation texts the cell can display (`display(Markdown(...))`). -/
inductive HelpMsg where
  | s3EndpointPermissions
  | createS3EndpointManually
deriving DecidableEq, Repr

/-- The EC2 calls the cell can issue. -/
inductive Ec2Call where
  | describeRouteTables
  | createVpcEndpoint (routeTableIds : List String)
deriving DecidableEq, Repr

/-- Is the call an attempt to create the VPC S3 endpoint? -/
def Ec2Call.isCreateVpcEndpoint : Ec2Call → Bool
  | Ec2Call.createVpcEndpoint _ => true
  | _ => false

/-- The list comprehension `[rt["RouteTableId"] for rt in
describe_route_tables()['RouteTables'] if rt['VpcId'] == default_vpc]`. -/
def routeTablesFor (vpc : String) (rts : List RouteTable) : List String :=
  (rts.filter (fun rt => rt.vpcId == vpc)).map (fun rt => rt.routeTableId)

/-- The message of the failed `assert len(route_tables) >= 1`. -/
def routeTablesAssertionMsg : String :=
  "AssertionError: No route tables were found. Please follow the VPC S3 endpoint creation guide by clicking the above link."

/-- The try/except around `ec2.create_vpc_endpoint(...)`: a message with
"RouteAlreadyExists" is swallowed (printed as already existing), a message
with "UnauthorizedOperation" displays the permissions help and re-raises, any
other error displays the manual-creation help and re-raises.  The input is
the outcome of the `create_vpc_endpoint` call itself. -/
def createEndpointTry (callResult : Except String Unit) :
    List HelpMsg × Except String Unit :=
  match callResult with
  | Except.ok _ => ([], Except.ok ())
  | Except.error e =>
      if hasSubstr "RouteAlreadyExists" e then ([], Except.ok ())
      else if hasSubstr "UnauthorizedOperation" e then
        ([HelpMsg.s3EndpointPermissions], Except.error e)
      else ([HelpMsg.createS3EndpointManually], Except.error e)

/-- The whole VPC S3 endpoint cell.  First try/except: the
`describe_route_tables` call (its outcome is `describeResult`); on an error
whose message holds "UnauthorizedOperation" the permissions help is shown,
otherwise the manual-creation help, and the error is re-raised either way.
Then `assert len(route_tables) >= 1`, and only past the assert the
`create_vpc_endpoint` call (outcome `createResult`) wrapped by
`createEndpointTry`.  The result records the EC2 calls issued, the helps
displayed and whether the cell raised. -/
def s3EndpointCell (vpc : String) (describeResult : Except String (List RouteTable))
    (createResult : Except String Unit) :
    List Ec2Call × List HelpMsg × Except String Unit :=
  match describeResult with
  | Except.error e =>
      if hasSubstr "UnauthorizedOperation" e then
        ([Ec2Call.describeRouteTables], [HelpMsg.s3EndpointPermissions], Except.error e)
      else
        ([Ec2Call.describeRouteTables], [HelpMsg.createS3EndpointManually], Except.error e)
  | Except.ok rts =>
      let rtIds := routeTablesFor vpc rts
      if rtIds.length ≥ 1 then
        let tried := createEndpointTry createResult
        ([Ec2Call.describeRouteTables, Ec2Call.createVpcEndpoint rtIds],
         tried.1, tried.2)
      else
        ([Ec2Call.describeRouteTables], [], Except.error routeTablesAssertionMsg)

/-! ## Training job submission (the RLEstimator cell) -/

/-- The notebook's `RLCOACH_PRESET = "deepracer"`. -/
def rlcoachPresetName : String := "deepracer"

/-- The `hyperparameters` dict handed to the `RLEstimator`: its keys are
`s3_bucket`, `s3_prefix` (field `s3Prefix` here), `aws_region` and
`RLCOACH_PRESET` (field `rlcoachPreset` here). -/
structure Hyperparameters where
  s3_bucket : String
  s3Prefix : String
  aws_region : String
  rlcoachPreset : String
deriving DecidableEq, Repr

/-- The training-job request the cell submits: the `RLEstimator(...)`
arguments the claims touch, together with the `job_name` passed to
`estimator.fit(job_name=job_name, wait=False)`. -/
structure TrainingJobRequest where
  entryPoint : String
  sourceDir : String
  trainInstanceType : String
  trainInstanceCount : Nat
  trainMaxRun : Nat
  baseJobName : String
  jobName : String
  hyperparameters : Hyperparameters
deriving DecidableEq, Repr

/-- The `RLEstimator` construction plus `estimator.fit(job_name=job_name)`,
as a function of the naming cell's `tm` and the session's bucket and
region. -/
def trainingJobRequest (tm : Tm) (bucket region : String) : TrainingJobRequest where
  entryPoint := "training_worker.py"
  sourceDir := "src"
  trainInstanceType := "ml.c4.2xlarge"
  trainInstanceCount := 1
  trainMaxRun := jobDurationInSeconds
  baseJobName := jobNameStem
  jobName := job_name tm
  hyperparameters :=
    { s3_bucket := bucket
      s3Prefix := s3Prefix tm
      aws_region := region
      rlcoachPreset := rlcoachPresetName }

/-! ## Simulation job submission (training loop and evaluation cells) -/

/-- The `envriron_vars` dict of the training-simulation cell (the notebook's
own spelling). -/
structure EnvVars where
  MODEL_S3_BUCKET : String
  MODEL_S3_PREFIX : String
  ROS_AWS_REGION : String
  WORLD_NAME : String
  MARKOV_PRESET_FILE : String
  NUMBER_OF_ROLLOUT_WORKERS : String
deriving DecidableEq, Repr

/-- The `envriron_vars` dict of the evaluation cell (same keys except
`NUMBER_OF_TRIALS` replaces `NUMBER_OF_ROLLOUT_WORKERS`). -/
structure EvalEnvVars where
  MODEL_S3_BUCKET : String
  MODEL_S3_PREFIX : String
  ROS_AWS_REGION : String
  NUMBER_OF_TRIALS : String
  MARKOV_PRESET_FILE : String
  WORLD_NAME : String
deriving DecidableEq, Repr

/-- The `launchConfig` sub-dict of a `simulation_application` entry. -/
structure LaunchConfig (E : Type) where
  packageName : String
  launchFile : String
  environmentVariables : E
deriving DecidableEq, Repr

/-- One entry of the `simulationApplications` list: the application ARN and
its launch configuration. -/
structure SimApplicationSpec (E : Type) where
  application : String
  launchConfig : LaunchConfig E
deriving DecidableEq, Repr

/-- The `vpcConfig` dict shared by all simulation-job requests. -/
structure VpcCfg where
  subnets : List String
  securityGroups : List String
  assignPublicIp : Bool
deriving DecidableEq, Repr

/-- One `robomaker.create_simulation_job(...)` request. -/
structure SimJobSubmission (E : Type) where
  clientRequestToken : String
  iamRole : String
  maxJobDurationInSeconds : Nat
  failureBehavior : String
  simulationApplications : List (SimApplicationSpec E)
  vpcCfg : VpcCfg
  outputLocation : String × String
deriving DecidableEq, Repr

/-- A request with its idempotency token blanked: two requests are
"identical except for the token" when `dropToken` maps them to the same
value. -/
def dropToken {E : Type} (r : SimJobSubmission E) : SimJobSubmission E :=
  { r with clientRequestToken := "" }

/-- The inputs of the simulation-job cells that are fixed before the
submission loop runs: the per-call `gmtime()` oracle (`clock i` is the value
the i-th `strftime(.., gmtime())` reads), the naming cell's `tm`, the
session's bucket and region, the IAM role, the simulation application's ARN
and the default-VPC configuration. -/
structure SimCellArgs where
  clock : Nat → Tm
  tm : Tm
  s3_bucket : String
  aws_region : String
  role : String
  simulationAppArn : String
  vpc : VpcCfg

/-- The training-simulation cell's `envriron_vars`, with
`NUMBER_OF_ROLLOUT_WORKERS` equal to `str(num_simulation_workers)`. -/
def envrironVars (a : SimCellArgs) (numWorkers : Nat) : EnvVars where
  MODEL_S3_BUCKET := a.s3_bucket
  MODEL_S3_PREFIX := s3Prefix a.tm
  ROS_AWS_REGION := a.aws_region
  WORLD_NAME := "hard_track"
  MARKOV_PRESET_FILE := rlcoachPresetName ++ ".py"
  NUMBER_OF_ROLLOUT_WORKERS := toString numWorkers

/-- The request the loop body `robomaker.create_simulation_job(...)` issues
for iteration `job_no`: everything comes from the dicts computed before the
loop, only `clientRequestToken=strftime("%Y-%m-%d-%H-%M-%S", gmtime())` takes
a fresh clock read. -/
def simJobRequest (a : SimCellArgs) (numWorkers jobNo : Nat) :
    SimJobSubmission EnvVars where
  clientRequestToken := strftimeTokenFmt (a.clock jobNo)
  iamRole := a.role
  maxJobDurationInSeconds := jobDurationInSeconds
  failureBehavior := "Continue"
  simulationApplications :=
    [{ application := a.simulationAppArn
       launchConfig :=
        { packageName := "deepracer_simulation"
          launchFile := "distributed_training.launch"
          environmentVariables := envrironVars a numWorkers } }]
  vpcCfg := a.vpc
  outputLocation := (a.s3_bucket, s3PrefixRobomaker a.tm)

/-- The submission loop `for job_no in range(num_simulation_workers): ...`:
the list of requests issued, in order. -/
def simulationJobsCell (a : SimCellArgs) (numWorkers : Nat) :
    List (SimJobSubmission EnvVars) :=
  (List.range numWorkers).map (simJobRequest a numWorkers)

/-- The `job_arns = [response["arn"] for response in responses]` list:
`respond i` is the ARN field of the response to the i-th creation call. -/
def jobArns (respond : Nat → String) (numWorkers : Nat) : List String :=
  (List.range numWorkers).map respond

/-- The RoboMaker job-management calls the notebook issues. -/
inductive RoboCall where
  | createSimulationJob (req : SimJobSubmission EnvVars)
  | cancelSimulationJob (jobArn : String)
deriving DecidableEq, Repr

/-- The creation calls the submission loop issues, in order. -/
def createCalls (a : SimCellArgs) (numWorkers : Nat) : List RoboCall :=
  (simulationJobsCell a numWorkers).map RoboCall.createSimulationJob

/-- The cleanup loop `for job_arn in job_arns:
robomaker.cancel_simulation_job(job=job_arn)`: one cancel call per element
of `job_arns`, in order. -/
def cancelCalls (arns : List String) : List RoboCall :=
  arns.map RoboCall.cancelSimulationJob

/-- The evaluation cell's `envriron_vars`, with `NUMBER_OF_TRIALS` equal to
`str(20)`. -/
def evalEnvrironVars (a : SimCellArgs) : EvalEnvVars where
  MODEL_S3_BUCKET := a.s3_bucket
  MODEL_S3_PREFIX := s3Prefix a.tm
  ROS_AWS_REGION := a.aws_region
  NUMBER_OF_TRIALS := toString 20
  MARKOV_PRESET_FILE := rlcoachPresetName ++ ".py"
  WORLD_NAME := "hard_track"

/-- The single `create_simulation_job` request of the evaluation cell,
`evalTm` being its own fresh `gmtime()` read. -/
def evaluationJobRequest (a : SimCellArgs) (evalTm : Tm) :
    SimJobSubmission EvalEnvVars where
  clientRequestToken := strftimeTokenFmt evalTm
  iamRole := a.role
  maxJobDurationInSeconds := jobDurationInSeconds
  failureBehavior := "Continue"
  simulationApplications :=
    [{ application := a.simulationAppArn
       launchConfig :=
        { packageName := "deepracer_simulation"
          launchFile := "evaluation.launch"
          environmentVariables := evalEnvrironVars a } }]
  vpcCfg := a.vpc
  outputLocation := (a.s3_bucket, s3PrefixRobomaker a.tm)

/-! ## Metrics CSV loading and plotting -/

/-- One row of the metrics CSV, at the columns the plotting cell reads:
`episodeNum` is the "Episode #" value and `trainingReward` the "Training
Reward" value, `none` encoding a missing value (NaN). -/
structure CsvRow where
  episodeNum : Int
  trainingReward : Option Rat
deriving DecidableEq, Repr

/-- The cell's `df = df.dropna(subset=['Training Reward'])`: rows whose
"Training Reward" entry is missing are removed, the rest kept in order. -/
def dropnaTrainingReward (df : List CsvRow) : List CsvRow :=
  df.filter (fun r => r.trainingReward.isSome)

/-- What `df.plot(x='Episode #', y='Training Reward', ...)` renders. -/
structure PlotSpec where
  points : List (Int × Rat)
  xLabel : String
  yLabel : String
deriving DecidableEq, Repr

/-- The plotting cell: drop the rows with a missing reward, then plot reward
against episode number, labelling the axes with the chosen columns. -/
def plotCell (df : List CsvRow) : PlotSpec where
  points := (dropnaTrainingReward df).map
    (fun r => (r.episodeNum, r.trainingReward.getD 0))
  xLabel := "Episode #"
  yLabel := "Training Reward"

/-! ## Theorems -/

/-- C1 counterexample: the claim says the region-gate rejection happens
before any network call, but the session's `default_bucket()` setup, a
network call to STS/S3, runs before the gate in the notebook's statement
order. -/
theorem networkCallPrecedesRegionGate :
    Step.defaultBucket ∈ stepsBeforeRegionGate ∧
    touchesNetwork Step.defaultBucket = true := by decide

/-- C1 (amended): the region gate accepts exactly us-west-2, us-east-1 and
eu-west-1 and raises the fixed exception for every other region, and the
rejection happens before every network call of the notebook except the
session default-bucket setup, which is the only network step preceding the
gate. -/
theorem regionGateExactness (r : String) :
    (regionGate r = Except.ok () ↔
      (r = "us-west-2" ∨ r = "us-east-1" ∨ r = "eu-west-1")) ∧
    (regionGate r = Except.error regionErrorMsg ↔
      ¬ (r = "us-west-2" ∨ r = "us-east-1" ∨ r = "eu-west-1")) ∧
    stepsBeforeRegionGate.filter touchesNetwork = [Step.defaultBucket] := by
  have hmem : (r ∈ allowedRegions) ↔
      (r = "us-west-2" ∨ r = "us-east-1" ∨ r = "eu-west-1") := by
    simp [allowedRegions]
  by_cases h : r ∈ allowedRegions
  · have hd := hmem.mp h
    have hgate : regionGate r = Except.ok () := by simp [regionGate, h]
    refine ⟨?_, ?_, by decide⟩
    · simp [hgate, hd]
    · simp [hgate, hd]
  · have hnd : ¬ (r = "us-west-2" ∨ r = "us-east-1" ∨ r = "eu-west-1") :=
      fun hd => h (hmem.mpr hd)
    have hgate : regionGate r = Except.error regionErrorMsg := by
      simp [regionGate, h]
    refine ⟨?_, ?_, by decide⟩
    · simp [hgate, hnd]
    · simp [hgate, hnd]

/-- C3: for any timestamp, the training-job name starts with the fixed
"rl-deepracer" stem and holds the literal "sagemaker", and the simulation
output prefix holds the literal "robomaker". -/
theorem jobNameMarkers (tm : Tm) :
    "rl-deepracer".data <+: (job_name tm).data ∧
    "sagemaker".data <:+: (job_name tm).data ∧
    "robomaker".data <:+: (s3PrefixRobomaker tm).data := by
  have hdata : (job_name tm).data =
      "rl-deepracer".data ++ "-sagemaker-".data ++ (strftimeYmdHMS tm).data := by
    simp [job_name, jobNameStem, String.data_append]
  have hdata2 : (s3PrefixRobomaker tm).data =
      "rl-deepracer".data ++ "-robomaker-".data ++ (strftimeYmdHMS tm).data := by
    simp [s3PrefixRobomaker, jobNameStem, String.data_append]
  refine ⟨?_, ?_, ?_⟩
  · rw [hdata, List.append_assoc]
    exact List.prefix_append _ _
  · rw [hdata]
    exact List.IsInfix.trans (by decide) (List.infix_append _ _ _)
  · rw [hdata2]
    exact List.IsInfix.trans (by decide) (List.infix_append _ _ _)

/-- C10: the training prefix and the simulation output prefix are formatted
from the same single `gmtime()` read, so they carry one identical timestamp
suffix and differ only in the "sagemaker" versus "robomaker" marker. -/
theorem prefixesShareOneTimestamp (tm : Tm) :
    ∃ stamp : List Char,
      (s3Prefix tm).data = "rl-deepracer-sagemaker-".data ++ stamp ∧
      (s3PrefixRobomaker tm).data = "rl-deepracer-robomaker-".data ++ stamp ∧
      stamp = (strftimeYmdHMS tm).data := by
  refine ⟨(strftimeYmdHMS tm).data, ?_, ?_, rfl⟩
  · have h : "rl-deepracer".data ++ "-sagemaker-".data =
        "rl-deepracer-sagemaker-".data := by decide
    calc (s3Prefix tm).data
        = "rl-deepracer".data ++ "-sagemaker-".data ++ (strftimeYmdHMS tm).data := by
          simp [s3Prefix, job_name, jobNameStem, String.data_append]
      _ = "rl-deepracer-sagemaker-".data ++ (strftimeYmdHMS tm).data := by rw [h]
  · have h : "rl-deepracer".data ++ "-robomaker-".data =
        "rl-deepracer-robomaker-".data := by decide
    calc (s3PrefixRobomaker tm).data
        = "rl-deepracer".data ++ "-robomaker-".data ++ (strftimeYmdHMS tm).data := by
          simp [s3PrefixRobomaker, jobNameStem, String.data_append]
      _ = "rl-deepracer-robomaker-".data ++ (strftimeYmdHMS tm).data := by rw [h]

/-- Sample timestamp used by witness instantiations. -/
def sampleTm : Tm :=
  { tmYear := 2019, tmMon := 1, tmMday := 2, tmHour := 3, tmMin := 4, tmSec := 5 }

/-- Sample VPC configuration used by witness instantiations. -/
def sampleVpc : VpcCfg :=
  { subnets := ["subnet-1"], securityGroups := ["sg-1"], assignPublicIp := true }

/-- Sample simulation-cell inputs used by witness instantiations. -/
def sampleArgs : SimCellArgs :=
  { clock := fun _ => sampleTm
    tm := sampleTm
    s3_bucket := "bucket"
    aws_region := "us-west-2"
    role := "role-arn"
    simulationAppArn := "app-arn"
    vpc := sampleVpc }

/-- C4: an endpoint-creation error whose message holds "RouteAlreadyExists"
is swallowed: the try/except returns success with no help displayed, and the
whole cell finishes without raising. -/
theorem routeAlreadyExistsTreatedAsSuccess (vpc : String) (rts : List RouteTable)
    (e : String) (hne : routeTablesFor vpc rts ≠ [])
    (h : hasSubstr "RouteAlreadyExists" e = true) :
    createEndpointTry (Except.error e) = ([], Except.ok ()) ∧
    (s3EndpointCell vpc (Except.ok rts) (Except.error e)).2.2 = Except.ok () := by
  have h1 : createEndpointTry (Except.error e) = ([], Except.ok ()) := by
    simp [createEndpointTry, h]
  have hlen : 1 ≤ (routeTablesFor vpc rts).length := List.length_pos.mpr hne
  exact ⟨h1, by simp [s3EndpointCell, hlen, h1]⟩

/-- C4 witness: the theorem applied at a concrete route table and error. -/
theorem routeAlreadyExistsTreatedAsSuccess_witness :
    createEndpointTry (Except.error "RouteAlreadyExists") = ([], Except.ok ()) ∧
    (s3EndpointCell "vpc-123"
      (Except.ok [{ routeTableId := "rtb-1", vpcId := "vpc-123" }])
      (Except.error "RouteAlreadyExists")).2.2 = Except.ok () :=
  routeAlreadyExistsTreatedAsSuccess "vpc-123"
    [{ routeTableId := "rtb-1", vpcId := "vpc-123" }]
    "RouteAlreadyExists" (by decide) (by decide)

/-- A message holding both markers: the endpoint-creation try/except checks
"RouteAlreadyExists" first, so this one is swallowed although it holds
"UnauthorizedOperation". -/
def doubleMarkerMsg : String := "RouteAlreadyExists UnauthorizedOperation"

/-- C5 counterexample: an endpoint-creation exception whose message holds
"UnauthorizedOperation" for which no remediation text is produced and
nothing is re-raised, because the message also holds "RouteAlreadyExists"
and that branch wins. -/
theorem unauthorizedSwallowedWhenRouteMarkerPresent :
    hasSubstr "UnauthorizedOperation" doubleMarkerMsg = true ∧
    createEndpointTry (Except.error doubleMarkerMsg) = ([], Except.ok ()) :=
  ⟨rfl, rfl⟩

/-- C5 (amended): a route-table lookup error whose message holds
"UnauthorizedOperation" displays the permissions remediation and re-raises
the error unchanged; an endpoint-creation error whose message holds
"UnauthorizedOperation" but not "RouteAlreadyExists" does the same. -/
theorem unauthorizedRemediationAndReraise (vpc e1 e2 : String)
    (cr : Except String Unit)
    (h1 : hasSubstr "UnauthorizedOperation" e1 = true)
    (h2 : hasSubstr "UnauthorizedOperation" e2 = true)
    (h2r : hasSubstr "RouteAlreadyExists" e2 = false) :
    s3EndpointCell vpc (Except.error e1) cr =
      ([Ec2Call.describeRouteTables], [HelpMsg.s3EndpointPermissions],
        Except.error e1) ∧
    createEndpointTry (Except.error e2) =
      ([HelpMsg.s3EndpointPermissions], Except.error e2) := by
  constructor
  · simp [s3EndpointCell, h1]
  · simp [createEndpointTry, h2, h2r]

/-- C5 witness: the amended theorem applied at a concrete error message. -/
theorem unauthorizedRemediationAndReraise_witness :
    s3EndpointCell "vpc-123" (Except.error "UnauthorizedOperation")
      (Except.ok ()) =
      ([Ec2Call.describeRouteTables], [HelpMsg.s3EndpointPermissions],
        Except.error "UnauthorizedOperation") ∧
    createEndpointTry (Except.error "UnauthorizedOperation") =
      ([HelpMsg.s3EndpointPermissions], Except.error "UnauthorizedOperation") :=
  unauthorizedRemediationAndReraise "vpc-123" "UnauthorizedOperation"
    "UnauthorizedOperation" (Except.ok ()) (by decide) (by decide) (by decide)

/-- C6: when the route-table lookup yields no entry for the default VPC, the
assertion fires (the cell raises the assertion error) and no
`create_vpc_endpoint` call is ever issued. -/
theorem emptyRouteTablesAssertBlocksEndpoint (vpc : String)
    (rts : List RouteTable) (cr : Except String Unit)
    (h : routeTablesFor vpc rts = []) :
    s3EndpointCell vpc (Except.ok rts) cr =
      ([Ec2Call.describeRouteTables], [], Except.error routeTablesAssertionMsg) ∧
    ∀ c ∈ (s3EndpointCell vpc (Except.ok rts) cr).1,
      c.isCreateVpcEndpoint = false := by
  have hres : s3EndpointCell vpc (Except.ok rts) cr =
      ([Ec2Call.describeRouteTables], [], Except.error routeTablesAssertionMsg) := by
    simp [s3EndpointCell, h]
  refine ⟨hres, ?_⟩
  rw [hres]
  intro c hc
  simp only [List.mem_singleton] at hc
  rw [hc]
  rfl

/-- C6 witness: the theorem applied at a describe result whose only route
table belongs to another VPC. -/
theorem emptyRouteTablesAssertBlocksEndpoint_witness :
    s3EndpointCell "vpc-123"
      (Except.ok [{ routeTableId := "rtb-9", vpcId := "vpc-other" }])
      (Except.ok ()) =
      ([Ec2Call.describeRouteTables], [], Except.error routeTablesAssertionMsg) ∧
    ∀ c ∈ (s3EndpointCell "vpc-123"
      (Except.ok [{ routeTableId := "rtb-9", vpcId := "vpc-other" }])
      (Except.ok ())).1, c.isCreateVpcEndpoint = false :=
  emptyRouteTablesAssertBlocksEndpoint "vpc-123"
    [{ routeTableId := "rtb-9", vpcId := "vpc-other" }] (Except.ok ()) (by decide)

/-- C2: the training-job name, the s3 prefix hyperparameter of the training
job, and the MODEL_S3_PREFIX environment variable of every simulation job
(each rollout job and the evaluation job) are the same string. -/
theorem storagePrefixContract (a : SimCellArgs) (numWorkers : Nat) (evalTm : Tm) :
    (trainingJobRequest a.tm a.s3_bucket a.aws_region).jobName =
      (trainingJobRequest a.tm a.s3_bucket a.aws_region).hyperparameters.s3Prefix ∧
    (∀ req ∈ simulationJobsCell a numWorkers,
      ∀ app ∈ req.simulationApplications,
        app.launchConfig.environmentVariables.MODEL_S3_PREFIX =
          (trainingJobRequest a.tm a.s3_bucket a.aws_region).jobName) ∧
    (∀ app ∈ (evaluationJobRequest a evalTm).simulationApplications,
      app.launchConfig.environmentVariables.MODEL_S3_PREFIX =
        (trainingJobRequest a.tm a.s3_bucket a.aws_region).jobName) := by
  refine ⟨rfl, ?_, ?_⟩
  · intro req hreq app happ
    simp only [simulationJobsCell, List.mem_map] at hreq
    obtain ⟨jobNo, _, rfl⟩ := hreq
    simp only [simJobRequest, List.mem_singleton] at happ
    rw [happ]
    rfl
  · intro app happ
    simp only [evaluationJobRequest, List.mem_singleton] at happ
    rw [happ]
    rfl

/-- C7: with one simulation worker, exactly one creation call is issued, its
response ARN is captured in a single-element list, and cleanup issues one
cancel call for exactly that element. -/
theorem singleWorkerSingleJobAndCancel (a : SimCellArgs) (respond : Nat → String) :
    (createCalls a 1).length = 1 ∧
    createCalls a 1 = [RoboCall.createSimulationJob (simJobRequest a 1 0)] ∧
    jobArns respond 1 = [respond 0] ∧
    cancelCalls (jobArns respond 1) = [RoboCall.cancelSimulationJob (respond 0)] := by
  have hrange : List.range 1 = [0] := rfl
  refine ⟨?_, ?_, ?_, ?_⟩ <;>
    simp [createCalls, simulationJobsCell, jobArns, cancelCalls, hrange]

/-- C8: the loop submits numWorkers requests; any two of them agree on the
whole launch configuration apart from the idempotency token, and when their
clock reads fall in the same second (equal `gmtime()` structs, since
`gmtime` has second resolution) the tokens are equal. -/
theorem sameSecondTokensCollide (a : SimCellArgs) (numWorkers i j : Nat)
    (hi : i < numWorkers) (hj : j < numWorkers)
    (hsec : a.clock i = a.clock j) :
    (simulationJobsCell a numWorkers).length = numWorkers ∧
    (simulationJobsCell a numWorkers)[i]? = some (simJobRequest a numWorkers i) ∧
    (simulationJobsCell a numWorkers)[j]? = some (simJobRequest a numWorkers j) ∧
    dropToken (simJobRequest a numWorkers i) =
      dropToken (simJobRequest a numWorkers j) ∧
    (simJobRequest a numWorkers i).clientRequestToken =
      (simJobRequest a numWorkers j).clientRequestToken := by
  refine ⟨by simp [simulationJobsCell], ?_, ?_, rfl, ?_⟩
  · simp [simulationJobsCell, List.getElem?_map, List.getElem?_range hi]
  · simp [simulationJobsCell, List.getElem?_map, List.getElem?_range hj]
  · simp [simJobRequest, hsec]

/-- C8 witness: two workers whose clock reads coincide get colliding tokens
while everything else in their requests agrees. -/
theorem sameSecondTokensCollide_witness :
    (simulationJobsCell sampleArgs 2).length = 2 ∧
    (simulationJobsCell sampleArgs 2)[0]? = some (simJobRequest sampleArgs 2 0) ∧
    (simulationJobsCell sampleArgs 2)[1]? = some (simJobRequest sampleArgs 2 1) ∧
    dropToken (simJobRequest sampleArgs 2 0) =
      dropToken (simJobRequest sampleArgs 2 1) ∧
    (simJobRequest sampleArgs 2 0).clientRequestToken =
      (simJobRequest sampleArgs 2 1).clientRequestToken :=
  sameSecondTokensCollide sampleArgs 2 0 1 (by decide) (by decide) rfl

/-- C9: the plotting cell drops exactly the rows whose "Training Reward"
value is missing, keeps the remaining rows in their input order (a sublist),
and plots episode number on the x-axis against reward on the y-axis. -/
theorem metricsPlotExcludesMissingRewards (df : List CsvRow) :
    (∀ r, r ∈ dropnaTrainingReward df ↔ r ∈ df ∧ r.trainingReward ≠ none) ∧
    (dropnaTrainingReward df).Sublist df ∧
    (plotCell df).points = (dropnaTrainingReward df).map
      (fun r => (r.episodeNum, r.trainingReward.getD 0)) ∧
    (plotCell df).xLabel = "Episode #" ∧
    (plotCell df).yLabel = "Training Reward" := by
  refine ⟨?_, ?_, rfl, rfl, rfl⟩
  · intro r
    simp [dropnaTrainingReward, List.mem_filter, Option.isSome_iff_ne_none]
  · show (List.filter (fun r => r.trainingReward.isSome) df).Sublist df
    exact List.filter_sublist df

end DeepRacer
